import Mathlib

/-!
Shallow embedding of the multi-agent chat pipeline of `src/index.tsx`
(Fadlay/Multi-Agent-Chat).

The embedding models the data flowing through `handleSubmit` (lines
1129-1293 of `src/index.tsx`): the conversation turns sent to the model
gateway, the four-agent initial/refinement/synthesis pipeline
(`multiAgentPromise`, lines 1227-1262), the concurrent memory-extraction
task (`memoryPromise`, lines 1217-1225), the image-model bypass branch
(lines 1186-1202), the error classification of the surrounding
`catch` (lines 1275-1289), and the commit of the results to the
caller-owned chat/memory state (lines 1264-1272).

The gateway (`ai.models.generateContent`) is modelled as an oracle
`GatewayCall → Except JsError GatewayResponse`; a thrown JavaScript
error is `Except.error (some message)` when it is an `Error` instance
with the given `message`, and `Except.error none` otherwise.
-/

namespace MultiAgentChat

set_option maxRecDepth 100000

/-- Role of a conversation turn (`'user' | 'model'` in `src/index.tsx`). -/
inductive Role
  | user
  | model
deriving DecidableEq

/-- One content part of a turn, mirroring the SDK `Part` shape used by the
code: either a text part (`{ text: ... }`, line 1183) or an inline binary
part (`{ inlineData: { mimeType, data } }`, line 1093).  Both fields are
optional so that a part built as `{ text: finalResult.text }` (line 1271)
with an absent `text` value is representable. -/
structure Part where
  text : Option String := none
  inlineData : Option (String × String) := none
deriving DecidableEq

/-- A text part `{ text: s }`. -/
def mkTextPart (s : String) : Part := { text := some s }

/-- A conversation turn `{ role, parts }` (SDK `Content`). -/
structure Content where
  role : Role
  parts : List Part
deriving DecidableEq

/-- One grounding citation entry carried on the response (opaque to the
pipeline; it is passed through to the final message at line 1270-1271). -/
structure Citation where
  uri : Option String := none
  title : Option String := none
deriving DecidableEq

/-- The slice of a gateway response the code reads: `response.text`
(absent when the response has no text), the candidate content parts read
by the bypass branch (`response.candidates?.[0]?.content?.parts`, line
1200, `none` when that optional chain is absent), and the grounding
chunks read at line 1270 (`none` when the optional chain is absent). -/
structure GatewayResponse where
  text : Option String := none
  candidateParts : Option (List Part) := none
  groundingChunks : Option (List Citation) := none
deriving DecidableEq

/-- One gateway invocation as issued by the code: the model identifier,
the `contents` turn list, the optional `systemInstruction`, whether the
config carries the `googleSearch` tool (lines 1229-1231), and whether it
requests image+text response modalities (line 1197, bypass branch only). -/
structure GatewayCall where
  model : String
  contents : List Content
  systemInstruction : Option String
  googleSearch : Bool
  imageModality : Bool
deriving DecidableEq

/-- A chat message as stored in the session (`Message` interface, lines
25-33), restricted to the fields the pipeline writes. -/
structure Message where
  role : Role
  parts : List Part
  memoryUpdated : Bool := false
  groundingChunks : Option (List Citation) := none
deriving DecidableEq

/-- A thrown JavaScript error: `some message` for an `Error` instance
with that `.message`, `none` for a non-`Error` throw. -/
abbrev JsError := Option String

/-- The gateway oracle: every invocation is independently fallible. -/
abbrev Gateway := GatewayCall → Except JsError GatewayResponse

/-- `INITIAL_SYSTEM_INSTRUCTION`, line 20 of `src/index.tsx`. -/
def INITIAL_SYSTEM_INSTRUCTION : String :=
  "You are an expert-level AI assistant. Your task is to provide a comprehensive, accurate, and well-reasoned initial response to the user's query. Aim for clarity and depth. Note: Your response is an intermediate step for other AI agents and will not be shown to the user. Be concise and focus on core information without unnecessary verbosity."

/-- `REFINEMENT_SYSTEM_INSTRUCTION`, line 21 of `src/index.tsx`. -/
def REFINEMENT_SYSTEM_INSTRUCTION : String :=
  "You are a reflective AI agent. Your primary task is to find flaws. Critically analyze your previous response and the responses from other AI agents. Focus specifically on identifying factual inaccuracies, logical fallacies, omissions, or any other weaknesses. Your goal is to generate a new, revised response that corrects these specific errors and is free from the flaws you have identified. Note: This refined response is for a final synthesizer agent, not the user, so be direct and prioritize accuracy over conversational style."

/-- `SYNTHESIZER_SYSTEM_INSTRUCTION`, line 22 of `src/index.tsx`. -/
def SYNTHESIZER_SYSTEM_INSTRUCTION : String :=
  "You are a master synthesizer AI. Your PRIMARY GOAL is to write the final, complete response to the user's query. You will be given the user's query and four refined responses from other AI agents. Your task is to analyze these responses—identifying their strengths to incorporate and their flaws to discard. Use this analysis to construct the single best possible answer for the user. Do not just critique the other agents; your output should BE the final, polished response."

/-- `MEMORY_AGENT_SYSTEM_INSTRUCTION`, line 23 of `src/index.tsx`. -/
def MEMORY_AGENT_SYSTEM_INSTRUCTION : String :=
  "You are a memory management AI. Your task is to analyze the user's latest message in the context of the conversation. Identify and extract ONLY crucial, long-term facts about the user (e.g., name, preferences, goals, key life details). Do NOT extract trivial information. If important new information is found, output it as a concise statement. If the user explicitly asks you to remember something, save it. If no new important information is found or the user's message is trivial, output the exact string 'NO_UPDATE'."

/-- The image-oriented model variant checked at lines 792 and 1186. -/
def imageModelId : String := "gemini-2.5-flash-image-preview"

/-- Whether `pat` occurs as a contiguous sublist of `l`. -/
def charsContain (l pat : List Char) : Bool :=
  match l with
  | [] => pat.isEmpty
  | _ :: tl => pat.isPrefixOf l || charsContain tl pat

/-- JavaScript `String.prototype.includes`: substring containment, used
by the error classifier at lines 1279 and 1281. -/
def containsSubstr (s pat : String) : Bool :=
  charsContain s.data pat.data

/-- JavaScript template interpolation of a possibly-absent string value:
interpolating `undefined` produces the text "undefined". -/
def jsStr (o : Option String) : String := o.getD "undefined"

/-- JavaScript truthiness of a `string | null` value: `null` and the
empty string are falsy. -/
def jsTruthyStr : Option String → Bool
  | none => false
  | some s => s != ""

/-- The error text chosen by the `catch` block at lines 1275-1289: the
default apology for non-`Error` throws, then the substring-based
classification chain for `Error` messages (quota, then invalid key,
then generic with the error detail). -/
def errorMessageText (e : JsError) : String :=
  match e with
  | none => "Sorry, I encountered an error. Please try again."
  | some msg =>
    if containsSubstr msg "RESOURCE_EXHAUSTED" then
      "Anda telah melebihi kuota API Anda saat ini. Silakan periksa paket dan detail tagihan Anda, atau coba lagi nanti."
    else if containsSubstr msg "API key not valid" then
      "API key tidak valid. Silakan periksa kembali API key Anda di pengaturan."
    else
      "Terjadi kesalahan: " ++ msg

/-- The single model-role error message appended by the `catch` block
(line 1288). -/
def errorMessage (e : JsError) : Message :=
  { role := Role.model, parts := [mkTextPart (errorMessageText e)] }

/-- The serialized memory context prepended to the agent system
instructions (lines 1208-1213): a framed bullet-fact block when the
memory set is non-empty, the empty string otherwise. -/
def memoryContext (memory : List String) : String :=
  if memory.length > 0 then
    "--- Start User Memory ---\nThe user has provided the following information about themselves. Use this to personalize your response:\n- "
      ++ String.intercalate "\n- " memory
      ++ "\n--- End User Memory ---\n\n"
  else ""

/-- The inputs of one submitted turn, captured at the top of
`handleSubmit`: the active model, the raw user input text, the pending
attachment (its resolved inline part, and its file name for the context
label at line 1240), the API history built from the persisted messages
(`buildApiHistory` output, line 1204), the memory set, and the grounding
flag. -/
structure TurnInput where
  model : String
  userInput : String
  attachmentName : Option String
  attachmentPart : Option Part
  mainChatHistory : List Content
  memory : List String
  isGroundingEnabled : Bool
deriving DecidableEq

/-- JavaScript `String.prototype.trim`: strip whitespace from both ends
(modelled over the character list). -/
def jsTrim (s : String) : String :=
  ⟨((s.data.dropWhile Char.isWhitespace).reverse.dropWhile Char.isWhitespace).reverse⟩

/-- `const trimmedInput = userInput.trim()`, line 1133. -/
def trimmedInput (t : TurnInput) : String := jsTrim t.userInput

/-- The submission guard `if (!trimmedInput && !attachment) return`,
line 1134: a turn is submitted only when trimmed text or an attachment
is present. -/
def canSubmit (t : TurnInput) : Bool :=
  trimmedInput t != "" || t.attachmentPart.isSome

/-- `userPartsForApi`, lines 1170-1184: attachment part first (when
present), then the text part (when the trimmed input is non-empty). -/
def userPartsForApi (t : TurnInput) : List Part :=
  t.attachmentPart.toList
    ++ (if trimmedInput t = "" then [] else [mkTextPart (trimmedInput t)])

/-- `currentUserTurn`, lines 1189 and 1205. -/
def currentUserTurn (t : TurnInput) : Content :=
  { role := Role.user, parts := userPartsForApi t }

/-- `conversationForAgents = [...mainChatHistory, currentUserTurn]`,
line 1206. -/
def conversationForAgents (t : TurnInput) : List Content :=
  t.mainChatHistory ++ [currentUserTurn t]

/-- `attachment?.name || 'file'` at line 1240 (JavaScript `||` treats
an absent attachment and an empty name both as falsy). -/
def attachmentLabel (t : TurnInput) : String :=
  match t.attachmentName with
  | some n => if n = "" then "file" else n
  | none => "file"

/-- `textForContext`, line 1240: each user part contributes its text, or
an attachment placeholder, joined with newlines. -/
def textForContextOfTurn (t : TurnInput) : String :=
  String.intercalate "\n"
    ((userPartsForApi t).map fun p =>
      match p.text with
      | some s => s
      | none => "[Attachment: " ++ attachmentLabel t ++ "]")

/-- Stage 1 (lines 1234-1236): `Array(4).fill(0).map(...)` issues four
gateway calls with identical contents and system instruction. -/
def stage1Calls (model : String) (conv : List Content) (memoryCtx : String)
    (grounding : Bool) : List GatewayCall :=
  List.replicate 4
    { model := model, contents := conv,
      systemInstruction := some (memoryCtx ++ INITIAL_SYSTEM_INSTRUCTION),
      googleSearch := grounding, imageModality := false }

/-- `initialAnswers.filter((_, i) => i !== index)`, line 1246: the
answers at the indices other than `index`, in original order. -/
def otherAnswers (answers : List String) (index : Nat) : List String :=
  ((answers.enum).filter fun p => p.1 != index).map Prod.snd

/-- The refinement prompt body built at line 1247. -/
def refinementContext (initialAnswer : String) (others : List String) : String :=
  "My initial response was: \"" ++ initialAnswer
    ++ "\". The other agents responded with: 1. \"" ++ others.getD 0 "undefined"
    ++ "\" 2. \"" ++ others.getD 1 "undefined"
    ++ "\" 3. \"" ++ others.getD 2 "undefined"
    ++ "\". Based on this context, critically re-evaluate and provide a new, improved response to the original query."

/-- The synthetic refinement turn, line 1248. -/
def refinementTurn (textForCtx refinementCtx : String) : Content :=
  { role := Role.user,
    parts := [mkTextPart (textForCtx ++ "\n\n---INTERNAL CONTEXT---\n" ++ refinementCtx)] }

/-- Stage 2 (lines 1245-1250): one refinement call per initial answer,
each seeded with the other agents' answers and the non-agent history. -/
def stage2Calls (model : String) (mainChatHistory : List Content)
    (textForCtx memoryCtx : String) (grounding : Bool)
    (initialAnswers : List String) : List GatewayCall :=
  (initialAnswers.enum).map fun p =>
    { model := model,
      contents := mainChatHistory
        ++ [refinementTurn textForCtx (refinementContext p.2 (otherAnswers initialAnswers p.1))],
      systemInstruction := some (memoryCtx ++ REFINEMENT_SYSTEM_INSTRUCTION),
      googleSearch := grounding, imageModality := false }

/-- The synthesis prompt body built at line 1257, enumerating the four
refined answers labeled 1-4. -/
def synthesizerContext (refinedAnswers : List String) : String :=
  "Here are the four refined responses to the user's query. Your task is to synthesize them into the best single, final answer.\n\nRefined Response 1:\n\""
    ++ refinedAnswers.getD 0 "undefined"
    ++ "\"\n\nRefined Response 2:\n\"" ++ refinedAnswers.getD 1 "undefined"
    ++ "\"\n\nRefined Response 3:\n\"" ++ refinedAnswers.getD 2 "undefined"
    ++ "\"\n\nRefined Response 4:\n\"" ++ refinedAnswers.getD 3 "undefined"
    ++ "\""

/-- Stage 3 (lines 1256-1260): the single synthesizer call. -/
def stage3Call (model : String) (mainChatHistory : List Content)
    (textForCtx memoryCtx : String) (grounding : Bool)
    (refinedAnswers : List String) : GatewayCall :=
  { model := model,
    contents := mainChatHistory
      ++ [{ role := Role.user,
            parts := [mkTextPart (textForCtx ++ "\n\n---INTERNAL CONTEXT---\n" ++ synthesizerContext refinedAnswers)] }],
    systemInstruction := some (memoryCtx ++ SYNTHESIZER_SYSTEM_INSTRUCTION),
    googleSearch := grounding, imageModality := false }

/-- The Stage 1 calls of a turn, with the turn's memory context and
grounding flag. -/
def stage1CallsOfTurn (t : TurnInput) : List GatewayCall :=
  stage1Calls t.model (conversationForAgents t) (memoryContext t.memory) t.isGroundingEnabled

/-- The Stage 2 calls of a turn, given the Stage 1 answers. -/
def stage2CallsOfTurn (t : TurnInput) (initialAnswers : List String) : List GatewayCall :=
  stage2Calls t.model t.mainChatHistory (textForContextOfTurn t)
    (memoryContext t.memory) t.isGroundingEnabled initialAnswers

/-- The Stage 3 call of a turn, given the Stage 2 answers. -/
def stage3CallOfTurn (t : TurnInput) (refinedAnswers : List String) : GatewayCall :=
  stage3Call t.model t.mainChatHistory (textForContextOfTurn t)
    (memoryContext t.memory) t.isGroundingEnabled refinedAnswers

/-- The memory-extraction call (lines 1217-1221): skipped when the
trimmed user text is empty, otherwise a single `gemini-1.5-flash` call
on the text-only history plus the raw user input, with the memory agent
system instruction and no tools. -/
def memoryCall (userInput : String) (mainChatHistory : List Content) : Option GatewayCall :=
  if jsTrim userInput = "" then none
  else some
    { model := "gemini-1.5-flash",
      contents := mainChatHistory ++ [{ role := Role.user, parts := [mkTextPart userInput] }],
      systemInstruction := some MEMORY_AGENT_SYSTEM_INSTRUCTION,
      googleSearch := false, imageModality := false }

/-- The memory-extraction task (lines 1217-1225): any gateway error is
caught and logged, an absent response text throws inside the same
`try` (`response.text.trim()`) and is likewise caught, and the sentinel
`NO_UPDATE` or an empty trimmed text yields no fact. -/
def memoryTaskRun (gw : Gateway) (userInput : String)
    (mainChatHistory : List Content) : Option String :=
  match memoryCall userInput mainChatHistory with
  | none => none
  | some c =>
    match gw c with
    | Except.error _ => none
    | Except.ok r =>
      match r.text with
      | none => none
      | some s =>
        let memoryText := jsTrim s
        if memoryText != "" && memoryText != "NO_UPDATE" then some memoryText else none

/-- The memory-extraction calls a turn issues: the `memoryPromise` is
created only in the non-bypass branch (the `else` of line 1186 spans
lines 1203-1273, and lines 1186-1202 contain no memory call). -/
def turnMemoryCalls (t : TurnInput) : List GatewayCall :=
  if t.model = imageModelId then []
  else (memoryCall t.userInput t.mainChatHistory).toList

/-- The multi-agent pipeline (`multiAgentPromise`, lines 1227-1262):
Stage 1 fan-out, Stage 2 refinement seeded with the Stage 1 answers,
Stage 3 synthesis; each `Promise.all` barrier propagates a failure of
any call of its stage, so a stage failure aborts the whole pipeline. -/
def multiAgentRun (gw : Gateway) (t : TurnInput) : Except JsError GatewayResponse := do
  let initialResponses ← (stage1CallsOfTurn t).mapM gw
  let initialAnswers := initialResponses.map fun r => jsStr r.text
  let refinedResponses ← (stage2CallsOfTurn t initialAnswers).mapM gw
  let refinedAnswers := refinedResponses.map fun r => jsStr r.text
  gw (stage3CallOfTurn t refinedAnswers)

/-- The pipeline calls actually dispatched: all of Stage 1 is dispatched
before its barrier; Stage 2 is dispatched only after all of Stage 1
succeeded; Stage 3 only after all of Stage 2 succeeded. -/
def mainIssuedCalls (gw : Gateway) (t : TurnInput) : List GatewayCall :=
  stage1CallsOfTurn t
    ++ match (stage1CallsOfTurn t).mapM gw with
       | Except.error _ => []
       | Except.ok rs =>
         stage2CallsOfTurn t (rs.map fun r => jsStr r.text)
           ++ match (stage2CallsOfTurn t (rs.map fun r => jsStr r.text)).mapM gw with
              | Except.error _ => []
              | Except.ok rs2 => [stage3CallOfTurn t (rs2.map fun r => jsStr r.text)]

/-- The single bypass call for the image-oriented model (lines
1192-1199): full conversation, image+text response modalities, no
system instruction and no tools. -/
def bypassCall (t : TurnInput) : GatewayCall :=
  { model := t.model, contents := t.mainChatHistory ++ [currentUserTurn t],
    systemInstruction := none, googleSearch := false, imageModality := true }

/-- Every gateway call a submitted turn issues: the bypass branch issues
exactly the one bypass call; the main branch issues the memory call (if
any) concurrently with the pipeline calls. -/
def turnIssuedCalls (gw : Gateway) (t : TurnInput) : List GatewayCall :=
  if t.model = imageModelId then [bypassCall t]
  else turnMemoryCalls t ++ mainIssuedCalls gw t

/-- The fallback part list substituted by the bypass branch at line 1200
when the candidate parts are absent. -/
def fallbackParts : List Part := [mkTextPart "Could not get a response."]

/-- `response.candidates?.[0]?.content?.parts ?? [{text: "Could not get
a response."}]`, line 1200: `??` substitutes only for an absent
(nullish) value, not for a present empty list. -/
def bypassMessageParts (r : GatewayResponse) : List Part :=
  r.candidateParts.getD fallbackParts

/-- The message appended by the bypass branch (lines 1200-1202), or the
error message from the surrounding `catch`. -/
def runBypassTurn (gw : Gateway) (t : TurnInput) : List Message :=
  match gw (bypassCall t) with
  | Except.error e => [errorMessage e]
  | Except.ok r => [{ role := Role.model, parts := bypassMessageParts r }]

/-- The final message built at lines 1270-1271: a single part holding
`finalResult.text` verbatim (no fallback), the `memoryUpdated` flag from
the truthiness of `newMemory`, and the pass-through grounding chunks. -/
def finalMessageOf (r : GatewayResponse) (newMemory : Option String) : Message :=
  { role := Role.model, parts := [{ text := r.text }],
    memoryUpdated := jsTruthyStr newMemory,
    groundingChunks := r.groundingChunks }

/-- The acceptance test `newMemory && !memory.includes(newMemory)` at
line 1266: truthy fact, not already present verbatim (case-sensitive
exact match). -/
def memoryAccepted (memory : List String) : Option String → Bool
  | none => false
  | some f => (f != "") && !(memory.contains f)

/-- The memory update applied at lines 1266-1268. -/
def updatedMemory (memory : List String) : Option String → List String
  | none => memory
  | some f => if memoryAccepted memory (some f) then memory ++ [f] else memory

/-- The messages the main branch would append given a pipeline result
and an extracted fact: the single error message on failure, the single
final message on success. -/
def mainMessagesGiven (pipeResult : Except JsError GatewayResponse)
    (newMemory : Option String) : List Message :=
  match pipeResult with
  | Except.error e => [errorMessage e]
  | Except.ok r => [finalMessageOf r newMemory]

/-- The outcome of a main-branch turn (lines 1217-1292): the list of
messages appended after the user message, and the resulting memory set.
On pipeline failure the `catch` appends exactly the one error message
and the `setMemory` at line 1267 is never reached. -/
def runMainTurn (gw : Gateway) (t : TurnInput) : List Message × List String :=
  let newMemory := memoryTaskRun gw t.userInput t.mainChatHistory
  match multiAgentRun gw t with
  | Except.error e => ([errorMessage e], t.memory)
  | Except.ok r => ([finalMessageOf r newMemory], updatedMemory t.memory newMemory)

/-- A shared-state update applied by the caller after the concurrent
phase: appending a message to the conversation, or replacing the memory
set. -/
inductive StateUpdate
  | appendMessage (m : Message)
  | setMemoryList (memory : List String)
deriving DecidableEq

/-- The time at which `await Promise.all([memoryPromise,
multiAgentPromise])` (line 1264) resumes the continuation, given the
settle times of the two tasks.  Models the ECMAScript `Promise.all`
settlement rule: it fulfills once all inputs have fulfilled, and rejects
as soon as any input rejects.  The memory task catches all its errors
and therefore always fulfills; the pipeline may reject. -/
def commitTime (memSettleTime pipeSettleTime : Nat)
    (pipeResult : Except JsError GatewayResponse) : Nat :=
  match pipeResult with
  | Except.error _ => pipeSettleTime
  | Except.ok _ => max memSettleTime pipeSettleTime

/-- The timed shared-state updates of the commit step (lines 1264-1272
and the `catch` at 1275-1289): on success, the conditional memory update
and the final-message append, both at the resume time; on failure, the
single error-message append at the resume time. -/
def commitEvents (memSettleTime pipeSettleTime : Nat)
    (pipeResult : Except JsError GatewayResponse)
    (newMemory : Option String) (memory : List String) : List (Nat × StateUpdate) :=
  match pipeResult with
  | Except.error e =>
    [(commitTime memSettleTime pipeSettleTime pipeResult,
      StateUpdate.appendMessage (errorMessage e))]
  | Except.ok r =>
    (if memoryAccepted memory newMemory then
      [(commitTime memSettleTime pipeSettleTime pipeResult,
        StateUpdate.setMemoryList (updatedMemory memory newMemory))]
    else [])
      ++ [(commitTime memSettleTime pipeSettleTime pipeResult,
           StateUpdate.appendMessage (finalMessageOf r newMemory))]

/-- A concrete main-branch turn used to instantiate the theorems. -/
def sampleTurn : TurnInput :=
  { model := "gemini-1.5-flash", userInput := "hello",
    attachmentName := none, attachmentPart := none,
    mainChatHistory := [], memory := [], isGroundingEnabled := false }

/-- A concrete bypass turn: image-oriented model, non-empty text. -/
def bypassSampleTurn : TurnInput :=
  { sampleTurn with model := imageModelId }

/-- A concrete grounded main-branch turn. -/
def groundedTurn : TurnInput :=
  { sampleTurn with isGroundingEnabled := true }

/-- A concrete turn with a non-empty memory set. -/
def memTurn : TurnInput :=
  { sampleTurn with memory := ["Likes Lean"] }

/-- A concrete whitespace-only turn carrying an attachment. -/
def attachmentOnlyTurn : TurnInput :=
  { sampleTurn with
    userInput := "   ",
    attachmentName := some "a.png",
    attachmentPart := some { inlineData := some ("image/png", "QUJD") } }

/-- A concrete successful response. -/
def sampleAnswerResp : GatewayResponse := { text := some "answer" }

/-- A gateway on which every call fails with a quota-flavored error. -/
def gwAllFail : Gateway := fun _ => Except.error (some "RESOURCE_EXHAUSTED")

/-- A gateway on which every call succeeds. -/
def gwOk : Gateway := fun _ => Except.ok sampleAnswerResp

/-- A gateway that fails exactly on the memory-extraction call. -/
def gwMemFail : Gateway := fun c =>
  if c.systemInstruction = some MEMORY_AGENT_SYSTEM_INSTRUCTION then
    Except.error (some "boom")
  else Except.ok sampleAnswerResp

/-- The Stage 1 call record of `groundedTurn`. -/
def groundedStage1Call : GatewayCall :=
  { model := "gemini-1.5-flash", contents := conversationForAgents groundedTurn,
    systemInstruction := some (memoryContext groundedTurn.memory ++ INITIAL_SYSTEM_INSTRUCTION),
    googleSearch := true, imageModality := false }

/-- The memory call of `sampleTurn`. -/
def sampleMemoryCall : GatewayCall :=
  { model := "gemini-1.5-flash",
    contents := [{ role := Role.user, parts := [mkTextPart "hello"] }],
    systemInstruction := some MEMORY_AGENT_SYSTEM_INSTRUCTION,
    googleSearch := false, imageModality := false }

/-- C1: for a completed Stage 1 producing four answers, the Stage 2
refinement prompt built for agent `i` enumerates exactly the three
answers at indices other than `i`, in their original index order (the
answer list with index `i` erased), and the agent's own answer enters
the prompt only as "my initial response", never among "the others". -/
theorem c1_stage2_prompt_excludes_self (answers : List String) (i : Nat)
    (model : String) (hist : List Content) (tfc mc : String) (g : Bool)
    (h4 : answers.length = 4) (hi : i < 4) :
    otherAnswers answers i = answers.eraseIdx i
    ∧ (otherAnswers answers i).length = 3
    ∧ (stage2Calls model hist tfc mc g answers).get? i = some
        { model := model,
          contents := hist ++ [refinementTurn tfc
            (refinementContext (answers.getD i "undefined") (answers.eraseIdx i))],
          systemInstruction := some (mc ++ REFINEMENT_SYSTEM_INSTRUCTION),
          googleSearch := g, imageModality := false } := by
  obtain ⟨a, b, c, d, rfl⟩ : ∃ a b c d, answers = [a, b, c, d] := by
    rcases answers with _ | ⟨a, _ | ⟨b, _ | ⟨c, _ | ⟨d, _ | ⟨e, tl⟩⟩⟩⟩⟩ <;>
      simp only [List.length_cons, List.length_nil] at h4 <;>
      first
        | omega
        | exact ⟨a, b, c, d, rfl⟩
  interval_cases i <;> exact ⟨rfl, rfl, rfl⟩

/-- Witness for C1 at a concrete Stage 1 output. -/
theorem c1_stage2_prompt_excludes_self_witness :
    otherAnswers ["a0", "a1", "a2", "a3"] 1 = ["a0", "a2", "a3"]
    ∧ (otherAnswers ["a0", "a1", "a2", "a3"] 1).length = 3 := by
  have h := c1_stage2_prompt_excludes_self ["a0", "a1", "a2", "a3"] 1
    "m" [] "t" "" false (by decide) (by decide)
  exact ⟨h.1.trans (by decide), h.2.1⟩

/-- C3 counterexample: the claim that the Memory Extraction Task still
runs on the bypass path fails on the code.  For a concrete bypass turn
with non-empty trimmed user text, zero memory gateway calls are issued:
`memoryPromise` exists only inside the non-bypass `else` branch of
`handleSubmit` (lines 1203-1273), and the bypass branch (lines
1186-1202) issues only the one bypass call. -/
theorem c3_counterexample :
    bypassSampleTurn.model = imageModelId
    ∧ trimmedInput bypassSampleTurn ≠ ""
    ∧ turnMemoryCalls bypassSampleTurn = []
    ∧ turnIssuedCalls gwOk bypassSampleTurn = [bypassCall bypassSampleTurn]
    ∧ (turnIssuedCalls gwOk bypassSampleTurn).filter
        (fun c => c.systemInstruction == some MEMORY_AGENT_SYSTEM_INSTRUCTION) = [] :=
  ⟨rfl, by decide, rfl, rfl, by decide⟩

/-- C3 corrected: the Memory Extraction Task does not run on the bypass
path — an image-model turn issues no memory gateway call (its only call
is the bypass call, which does not carry the memory system
instruction); the task runs exactly on main-pipeline turns whose
trimmed user text is non-empty. -/
theorem c3_amended_memory_not_run_on_bypass (t : TurnInput) (gw : Gateway) :
    (t.model = imageModelId →
      turnMemoryCalls t = []
      ∧ ∀ c ∈ turnIssuedCalls gw t,
          c.systemInstruction ≠ some MEMORY_AGENT_SYSTEM_INSTRUCTION)
    ∧ (t.model ≠ imageModelId → trimmedInput t ≠ "" →
      turnMemoryCalls t = [{
        model := "gemini-1.5-flash",
        contents := t.mainChatHistory
          ++ [{ role := Role.user, parts := [mkTextPart t.userInput] }],
        systemInstruction := some MEMORY_AGENT_SYSTEM_INSTRUCTION,
        googleSearch := false, imageModality := false }]) := by
  constructor
  · intro him
    refine ⟨by simp [turnMemoryCalls, him], ?_⟩
    intro c hc
    simp [turnIssuedCalls, him] at hc
    subst hc
    simp [bypassCall]
  · intro him htext
    have h : ¬ jsTrim t.userInput = "" := htext
    simp [turnMemoryCalls, him, memoryCall, h]

/-- Witness for C3's corrected statement on both branches. -/
theorem c3_amended_memory_not_run_on_bypass_witness :
    turnMemoryCalls bypassSampleTurn = []
    ∧ (bypassCall bypassSampleTurn).systemInstruction
        ≠ some MEMORY_AGENT_SYSTEM_INSTRUCTION
    ∧ turnMemoryCalls sampleTurn = [sampleMemoryCall] := by
  have h1 := (c3_amended_memory_not_run_on_bypass bypassSampleTurn gwOk).1 rfl
  have h2 := (c3_amended_memory_not_run_on_bypass sampleTurn gwOk).2
    (by decide) (by decide)
  exact ⟨h1.1, h1.2 (bypassCall bypassSampleTurn) (by decide), h2.trans (by decide)⟩

/-- C4: Stage 1 of a main-pipeline turn with non-empty user text issues
exactly four gateway calls that are pairwise identical (same turn list,
same system instruction); the system instruction is the initial
instruction prefixed with the serialized memory context — a labeled
bullet-fact block framed by explicit start/end markers — exactly when
the memory set is non-empty (and with an empty prefix otherwise). -/
theorem c4_stage1_four_identical_calls (t : TurnInput) (gw : Gateway)
    (_hmodel : t.model ≠ imageModelId) (_htext : trimmedInput t ≠ "") :
    (stage1CallsOfTurn t).length = 4
    ∧ (∀ c1 ∈ stage1CallsOfTurn t, ∀ c2 ∈ stage1CallsOfTurn t, c1 = c2)
    ∧ (∀ c ∈ stage1CallsOfTurn t,
        c.contents = conversationForAgents t
        ∧ c.systemInstruction
            = some (memoryContext t.memory ++ INITIAL_SYSTEM_INSTRUCTION))
    ∧ (mainIssuedCalls gw t).take 4 = stage1CallsOfTurn t
    ∧ (t.memory = [] → memoryContext t.memory = "")
    ∧ (t.memory ≠ [] → memoryContext t.memory =
        "--- Start User Memory ---\nThe user has provided the following information about themselves. Use this to personalize your response:\n- "
          ++ String.intercalate "\n- " t.memory
          ++ "\n--- End User Memory ---\n\n") := by
  have hrep : ∀ c ∈ stage1CallsOfTurn t,
      c = { model := t.model, contents := conversationForAgents t,
            systemInstruction
              := some (memoryContext t.memory ++ INITIAL_SYSTEM_INSTRUCTION),
            googleSearch := t.isGroundingEnabled, imageModality := false } := by
    intro c hc
    unfold stage1CallsOfTurn stage1Calls at hc
    exact List.eq_of_mem_replicate hc
  refine ⟨rfl, ?_, ?_, ?_, ?_, ?_⟩
  · intro c1 h1 c2 h2
    rw [hrep c1 h1, hrep c2 h2]
  · intro c hc
    rw [hrep c hc]
    exact ⟨rfl, rfl⟩
  · unfold mainIssuedCalls
    exact List.take_left' rfl
  · intro hm
    simp [memoryContext, hm]
  · intro hm
    have hp : 0 < t.memory.length := List.length_pos.mpr hm
    simp [memoryContext, hp]

/-- Witness for C4 at a turn with a non-empty memory set. -/
theorem c4_stage1_four_identical_calls_witness :
    (stage1CallsOfTurn memTurn).length = 4
    ∧ memoryContext memTurn.memory =
        "--- Start User Memory ---\nThe user has provided the following information about themselves. Use this to personalize your response:\n- Likes Lean\n--- End User Memory ---\n\n" := by
  have h := c4_stage1_four_identical_calls memTurn gwOk (by decide) (by decide)
  exact ⟨h.1, (h.2.2.2.2.2 (by decide)).trans (by decide)⟩

/-- Every dispatched pipeline call carries the turn's grounding flag as
its web-search tool configuration (lines 1228-1231 build one shared
`agentConfig` reused by all three stages). -/
theorem googleSearch_of_mem_mainIssuedCalls (gw : Gateway) (t : TurnInput)
    (c : GatewayCall) (hc : c ∈ mainIssuedCalls gw t) :
    c.googleSearch = t.isGroundingEnabled := by
  have hs1 : ∀ d ∈ stage1CallsOfTurn t, GatewayCall.googleSearch d = t.isGroundingEnabled := by
    intro d hd
    unfold stage1CallsOfTurn stage1Calls at hd
    rw [List.eq_of_mem_replicate hd]
  have hs2 : ∀ answers : List String, ∀ d ∈ stage2CallsOfTurn t answers,
      GatewayCall.googleSearch d = t.isGroundingEnabled := by
    intro answers d hd
    unfold stage2CallsOfTurn stage2Calls at hd
    obtain ⟨p, hp, rfl⟩ := List.mem_map.mp hd
    rfl
  unfold mainIssuedCalls at hc
  rcases List.mem_append.mp hc with h1 | h2
  · exact hs1 c h1
  · cases hm1 : (stage1CallsOfTurn t).mapM gw with
    | error e =>
      rw [hm1] at h2
      simp at h2
    | ok rs =>
      rw [hm1] at h2
      rcases List.mem_append.mp h2 with h3 | h4
      · exact hs2 _ c h3
      · cases hm2 : (stage2CallsOfTurn t (rs.map fun r => jsStr r.text)).mapM gw with
        | error e =>
          rw [hm2] at h4
          simp at h4
        | ok rs2 =>
          rw [hm2] at h4
          simp at h4
          subst h4
          rfl

/-- C5: when grounding is enabled and the active model is not the
image-oriented variant, every dispatched Stage 1/2/3 call carries the
web-search tool capability; when the active model is the image-oriented
variant, no gateway call of the turn requests the search tool, whatever
the grounding flag holds. -/
theorem c5_grounding_tool_configuration (t : TurnInput) (gw : Gateway) :
    (t.isGroundingEnabled = true → t.model ≠ imageModelId →
      ∀ c ∈ mainIssuedCalls gw t, c.googleSearch = true)
    ∧ (t.model = imageModelId →
      ∀ c ∈ turnIssuedCalls gw t, c.googleSearch = false) := by
  constructor
  · intro hg _ c hc
    rw [googleSearch_of_mem_mainIssuedCalls gw t c hc, hg]
  · intro him c hc
    simp [turnIssuedCalls, him] at hc
    subst hc
    rfl

/-- Witness for C5: a grounded Stage 1 call requests the tool, the
bypass call never does. -/
theorem c5_grounding_tool_configuration_witness :
    groundedStage1Call.googleSearch = true
    ∧ (bypassCall bypassSampleTurn).googleSearch = false := by
  have h1 := (c5_grounding_tool_configuration groundedTurn gwOk).1 rfl (by decide)
    groundedStage1Call
    (by unfold mainIssuedCalls; exact List.mem_append_left _ (by decide))
  have h2 := (c5_grounding_tool_configuration bypassSampleTurn gwOk).2 rfl
    (bypassCall bypassSampleTurn) (by decide)
  exact ⟨h1, h2⟩

/-- C8: a submitted turn whose user text is empty or whitespace-only
issues zero memory-extraction gateway calls, even when only an
attachment made the submission valid. -/
theorem c8_memory_skipped_on_blank_text (t : TurnInput)
    (_hsubmit : canSubmit t = true) (hblank : trimmedInput t = "") :
    turnMemoryCalls t = [] := by
  unfold turnMemoryCalls memoryCall
  have h : jsTrim t.userInput = "" := hblank
  rw [h]
  simp

/-- Witness for C8: a whitespace-only turn with an attachment. -/
theorem c8_memory_skipped_on_blank_text_witness :
    canSubmit attachmentOnlyTurn = true
    ∧ turnMemoryCalls attachmentOnlyTurn = [] :=
  ⟨by decide, c8_memory_skipped_on_blank_text attachmentOnlyTurn (by decide) (by decide)⟩

/-- C9: a proposed memory fact that is string-equal (case-sensitive) to
an existing fact leaves the memory set unchanged, and applying the same
extracted fact repeatedly is idempotent on the memory set. -/
theorem c9_memory_dedup_idempotent (memory : List String) (f : String)
    (nm : Option String) :
    (f ∈ memory → updatedMemory memory (some f) = memory)
    ∧ updatedMemory (updatedMemory memory nm) nm = updatedMemory memory nm := by
  constructor
  · intro hf
    have hacc : memoryAccepted memory (some f) = false := by
      simp [memoryAccepted, hf]
    simp [updatedMemory, hacc]
  · match nm with
    | none => rfl
    | some f =>
      by_cases ha : memoryAccepted memory (some f) = true
      · have hadd : updatedMemory memory (some f) = memory ++ [f] := by
          simp [updatedMemory, ha]
        rw [hadd]
        have hacc2 : memoryAccepted (memory ++ [f]) (some f) = false := by
          simp [memoryAccepted]
        simp [updatedMemory, hacc2, hadd]
      · have hacc : memoryAccepted memory (some f) = false := by
          cases hmb : memoryAccepted memory (some f) with
          | false => rfl
          | true => exact absurd hmb ha
        have hkeep : updatedMemory memory (some f) = memory := by
          simp [updatedMemory, hacc]
        rw [hkeep]
        exact hkeep

/-- Witness for C9: re-proposing an existing fact changes nothing. -/
theorem c9_memory_dedup_idempotent_witness :
    updatedMemory ["likes tea"] (some "likes tea") = ["likes tea"]
    ∧ updatedMemory (updatedMemory [] (some "likes tea")) (some "likes tea")
        = updatedMemory [] (some "likes tea") :=
  ⟨(c9_memory_dedup_idempotent ["likes tea"] "likes tea" none).1 (by decide),
   (c9_memory_dedup_idempotent [] "x" (some "likes tea")).2⟩

/-- C2: any gateway failure during Stage 1, 2 or 3 of the main pipeline
fails the whole turn as one unit: the turn appends exactly one
model-role error message and zero partial assistant messages, the
memory set is left unchanged, the error text is chosen only by the
recognized error category (the quota substring, else the invalid-key
substring, otherwise the generic text carrying the error detail), and
after a Stage 1 failure no Stage 2 or Stage 3 call is dispatched, after
a Stage 2 failure no Stage 3 call is dispatched. -/
theorem c2_turn_fails_as_one_unit (gw : Gateway) (t : TurnInput) (m : String)
    (hfail : multiAgentRun gw t = Except.error (some m)) :
    (runMainTurn gw t).1 = [errorMessage (some m)]
    ∧ (errorMessage (some m)).role = Role.model
    ∧ (errorMessage (some m)).parts = [mkTextPart (errorMessageText (some m))]
    ∧ (runMainTurn gw t).2 = t.memory
    ∧ (containsSubstr m "RESOURCE_EXHAUSTED" = true →
        errorMessageText (some m) =
          "Anda telah melebihi kuota API Anda saat ini. Silakan periksa paket dan detail tagihan Anda, atau coba lagi nanti.")
    ∧ (containsSubstr m "RESOURCE_EXHAUSTED" = false →
        containsSubstr m "API key not valid" = true →
        errorMessageText (some m) =
          "API key tidak valid. Silakan periksa kembali API key Anda di pengaturan.")
    ∧ (containsSubstr m "RESOURCE_EXHAUSTED" = false →
        containsSubstr m "API key not valid" = false →
        errorMessageText (some m) = "Terjadi kesalahan: " ++ m)
    ∧ (∀ e1, (stage1CallsOfTurn t).mapM gw = Except.error e1 →
        mainIssuedCalls gw t = stage1CallsOfTurn t)
    ∧ (∀ rs, (stage1CallsOfTurn t).mapM gw = Except.ok rs →
        ∀ e2, (stage2CallsOfTurn t (rs.map fun r => jsStr r.text)).mapM gw
            = Except.error e2 →
          mainIssuedCalls gw t
            = stage1CallsOfTurn t
              ++ stage2CallsOfTurn t (rs.map fun r => jsStr r.text)) := by
  refine ⟨?_, rfl, rfl, ?_, ?_, ?_, ?_, ?_, ?_⟩
  · simp [runMainTurn, hfail]
  · simp [runMainTurn, hfail]
  · intro h1
    simp [errorMessageText, h1]
  · intro h1 h2
    simp [errorMessageText, h1, h2]
  · intro h1 h2
    simp [errorMessageText, h1, h2]
  · intro e1 he1
    unfold mainIssuedCalls
    rw [he1]
    simp
  · intro rs hrs e2 he2
    have hstep : mainIssuedCalls gw t
        = stage1CallsOfTurn t
          ++ (stage2CallsOfTurn t (rs.map fun r => jsStr r.text)
            ++ match (stage2CallsOfTurn t (rs.map fun r => jsStr r.text)).mapM gw with
               | Except.error _ => []
               | Except.ok rs2 => [stage3CallOfTurn t (rs2.map fun r => jsStr r.text)]) := by
      unfold mainIssuedCalls
      rw [hrs]
    rw [hstep, he2]
    simp

/-- Witness for C2: a quota-flavored Stage 1 failure yields exactly the
quota error message and stops the pipeline after Stage 1. -/
theorem c2_turn_fails_as_one_unit_witness :
    (runMainTurn gwAllFail sampleTurn).1
      = [errorMessage (some "RESOURCE_EXHAUSTED")]
    ∧ errorMessageText (some "RESOURCE_EXHAUSTED") =
        "Anda telah melebihi kuota API Anda saat ini. Silakan periksa paket dan detail tagihan Anda, atau coba lagi nanti."
    ∧ mainIssuedCalls gwAllFail sampleTurn = stage1CallsOfTurn sampleTurn := by
  have h := c2_turn_fails_as_one_unit gwAllFail sampleTurn
    "RESOURCE_EXHAUSTED" (by rfl)
  exact ⟨h.1, h.2.2.2.2.1 (by decide),
    h.2.2.2.2.2.2.2.1 (some "RESOURCE_EXHAUSTED") (by rfl)⟩

/-- Every commit event of a turn carries the one shared commit time. -/
theorem commitEvents_time_eq (tm tp : Nat)
    (r : Except JsError GatewayResponse) (nm : Option String)
    (mem : List String) :
    ∀ ev ∈ commitEvents tm tp r nm mem, ev.1 = commitTime tm tp r := by
  intro ev hev
  cases r with
  | error e =>
    simp [commitEvents] at hev
    rw [hev]
  | ok x =>
    unfold commitEvents at hev
    rcases List.mem_append.mp hev with h1 | h2
    · by_cases hacc : memoryAccepted mem nm = true
      · simp [hacc] at h1
        rw [h1]
      · simp [hacc] at h1
    · simp at h2
      rw [h2]

/-- C6 counterexample: the claim that no shared-state update happens
before both concurrent tasks settled fails on the failure path.
`Promise.all` rejects as soon as the pipeline rejects, so with the
pipeline rejecting at time 0 while the memory task settles at time 1,
the error message is appended at time 0, before the memory task has
settled. -/
theorem c6_counterexample :
    commitEvents 1 0 (Except.error (some "RESOURCE_EXHAUSTED")) none []
      = [(0, StateUpdate.appendMessage (errorMessage (some "RESOURCE_EXHAUSTED")))]
    ∧ commitTime 1 0 (Except.error (some "RESOURCE_EXHAUSTED")) < 1 :=
  ⟨rfl, by decide⟩

/-- C6 corrected: on success the commit waits for both tasks — every
update carries the same commit time, the maximum of the two settle
times — and the assistant message and any memory update are applied
together at that one time; on pipeline failure the single error append
happens at the pipeline's settle time, which may precede the memory
task's settle time, and the memory set is never updated there. -/
theorem c6_amended_commit_atomicity (tm tp : Nat)
    (r : Except JsError GatewayResponse) (nm : Option String)
    (mem : List String) :
    (∀ x, r = Except.ok x →
      ∀ ev ∈ commitEvents tm tp r nm mem,
        ev.1 = max tm tp ∧ tm ≤ ev.1 ∧ tp ≤ ev.1)
    ∧ (∀ ev1 ∈ commitEvents tm tp r nm mem,
        ∀ ev2 ∈ commitEvents tm tp r nm mem, ev1.1 = ev2.1)
    ∧ (∀ e, r = Except.error e →
        commitEvents tm tp r nm mem
          = [(tp, StateUpdate.appendMessage (errorMessage e))]) := by
  refine ⟨?_, ?_, ?_⟩
  · intro x hx ev hev
    subst hx
    have h := commitEvents_time_eq tm tp (Except.ok x) nm mem ev hev
    rw [h]
    exact ⟨rfl, Nat.le_max_left tm tp, Nat.le_max_right tm tp⟩
  · intro ev1 h1 ev2 h2
    rw [commitEvents_time_eq tm tp r nm mem ev1 h1,
      commitEvents_time_eq tm tp r nm mem ev2 h2]
  · intro e hx
    subst hx
    rfl

/-- Witness for C6's corrected statement on both result shapes. -/
theorem c6_amended_commit_atomicity_witness :
    ((max 2 3 : Nat),
      StateUpdate.appendMessage (finalMessageOf sampleAnswerResp none)).1 = max 2 3
    ∧ commitEvents 2 3 (Except.error none) none []
        = [(3, StateUpdate.appendMessage (errorMessage none))] := by
  have h1 := (c6_amended_commit_atomicity 2 3 (Except.ok sampleAnswerResp) none []).1
    sampleAnswerResp rfl
    (max 2 3, StateUpdate.appendMessage (finalMessageOf sampleAnswerResp none))
    (by decide)
  have h2 := (c6_amended_commit_atomicity 2 3 (Except.error none) none []).2.2
    none rfl
  exact ⟨h1.1, h2⟩

/-- C7: a gateway error raised inside the Memory Extraction Task is
swallowed and treated as no extracted fact: the task yields `none`, the
turn's appended messages equal those computed with no extracted fact
(in particular, on pipeline success the final assistant message is
exactly the no-fact final message, so the error never fails the turn
nor changes the answer), and the memory set is left unchanged. -/
theorem c7_memory_errors_swallowed (gw : Gateway) (t : TurnInput)
    (c : GatewayCall) (e : JsError)
    (hc : memoryCall t.userInput t.mainChatHistory = some c)
    (he : gw c = Except.error e) :
    memoryTaskRun gw t.userInput t.mainChatHistory = none
    ∧ (runMainTurn gw t).1 = mainMessagesGiven (multiAgentRun gw t) none
    ∧ (runMainTurn gw t).2 = t.memory
    ∧ (∀ r, multiAgentRun gw t = Except.ok r →
        (runMainTurn gw t).1 = [finalMessageOf r none]) := by
  have hnone : memoryTaskRun gw t.userInput t.mainChatHistory = none := by
    unfold memoryTaskRun
    rw [hc]
    simp [he]
  cases hm : multiAgentRun gw t with
  | error e2 =>
    refine ⟨hnone, ?_, ?_, ?_⟩
    · simp [runMainTurn, mainMessagesGiven, hm]
    · simp [runMainTurn, hm]
    · intro r hr
      simp at hr
  | ok r0 =>
    refine ⟨hnone, ?_, ?_, ?_⟩
    · simp [runMainTurn, mainMessagesGiven, hm, hnone]
    · simp [runMainTurn, hm, hnone, updatedMemory]
    · intro r hr
      injection hr with hr0
      subst hr0
      simp [runMainTurn, hm, hnone]

/-- Witness for C7: a gateway failing exactly on the memory call still
produces the pipeline's final answer, with no extracted fact. -/
theorem c7_memory_errors_swallowed_witness :
    memoryTaskRun gwMemFail sampleTurn.userInput sampleTurn.mainChatHistory = none
    ∧ (runMainTurn gwMemFail sampleTurn).1
        = [finalMessageOf sampleAnswerResp none] := by
  have h := c7_memory_errors_swallowed gwMemFail sampleTurn sampleMemoryCall
    (some "boom") (by rfl) (by rfl)
  exact ⟨h.1, h.2.2.2 sampleAnswerResp (by rfl)⟩

/-- C10 counterexample: the claim that every gateway response with
missing or empty text/content is replaced by the fallback string fails
on the code.  The main branch builds the final message as
`[{ text: finalResult.text }]` (line 1271), propagating an absent text
with no fallback, and the bypass branch keeps a present-but-empty parts
list verbatim (line 1200 substitutes only for a nullish value). -/
theorem c10_counterexample :
    (finalMessageOf { text := none } none).parts = [{ text := none }]
    ∧ ({ text := none } : Part) ≠ mkTextPart "Could not get a response."
    ∧ bypassMessageParts { candidateParts := some [] } = [] :=
  ⟨rfl, by decide, rfl⟩

/-- C10 amended: only the bypass branch substitutes the fallback part
list "Could not get a response.", and only when the response's candidate
parts are absent (nullish); a present-but-empty parts list is used
verbatim, and the main branch propagates `finalResult.text` as-is. -/
theorem c10_amended_fallback_only_on_bypass (r : GatewayResponse)
    (ps : List Part) (txt nm : Option String) :
    bypassMessageParts { r with candidateParts := none } = fallbackParts
    ∧ fallbackParts = [mkTextPart "Could not get a response."]
    ∧ bypassMessageParts { r with candidateParts := some ps } = ps
    ∧ (finalMessageOf { r with text := txt } nm).parts = [{ text := txt }] :=
  ⟨rfl, rfl, rfl, rfl⟩

end MultiAgentChat
